import Mathlib

/-!
# Verification of the YTotalHours URL-measurement pipeline

Shallow embedding of the core of `src/API/index.py`:
* `URL_REGEX` / `urlMatch` — the URL pattern, as decided by `re.match`
  (anchored prefix match) against `https?://(?:www\.)?[a-zA-Z0-9\-_]+\.[a-zA-Z]{2,}(?:/[^ \n]*)?`;
* `Json` / `find_urls` — the recursive URL extractor;
* `head_request` / `download_request` — the two measurement strategies,
  with network outcomes passed in explicitly;
* `format_time` and `process_urls` — the aggregating dispatcher.

Python floats (elapsed times, unit-scaled sizes) are modelled as exact
rationals; byte counts from `int(...)` are modelled as `Int`.
-/

namespace YTotalHours

/-! ## URL pattern

`URL_REGEX.match(data)` tests whether a PREFIX of `data` matches
`https?://(?:www\.)?[a-zA-Z0-9\-_]+\.[a-zA-Z]{2,}(?:/[^ \n]*)?`.
Because the trailing path group `(?:/[^ \n]*)?` is optional and may match
the empty string, and `re.match` does not require the whole string to be
consumed, a match exists iff the string starts with `http`, an optional
`s`, `://`, an optional `www.`, then at least one character from
`[a-zA-Z0-9\-_]`, a literal `.`, and at least two ASCII letters.
The host label is a maximal run of `[a-zA-Z0-9\-_]` characters: `.` is not
in that class, so the `\.` must sit exactly at the end of the run. -/

/-- Characters matched by the regex class `[a-zA-Z0-9\-_]`. -/
def isHostChar (c : Char) : Bool :=
  c.isAlpha || c.isDigit || c = '-' || c = '_'

/-- ASCII-letter test for the regex class `[a-zA-Z]`. -/
def isAsciiAlpha (c : Char) : Bool :=
  c.isAlpha

/-- After the scheme (and optional `www.`): a nonempty run of host
characters, a literal dot, then at least two ASCII letters
(`[a-zA-Z0-9\-_]+\.[a-zA-Z]{2,}`, under prefix-match semantics). -/
def hostMatch (cs : List Char) : Bool :=
  decide (cs.takeWhile isHostChar ≠ []) &&
    match cs.dropWhile isHostChar with
    | '.' :: a :: b :: _ => isAsciiAlpha a && isAsciiAlpha b
    | _ => false

/-- The part after `https?://`: optional greedy `www.`, then the host. -/
def afterScheme (cs : List Char) : Bool :=
  (decide (cs.take 4 = ['w', 'w', 'w', '.']) && hostMatch (cs.drop 4)) ||
    hostMatch cs

/-- `URL_REGEX.match(s)` viewed as a Boolean: does some prefix of `s`
match the pattern?  The scheme is `http` with an optional `s` then `://`. -/
def urlMatch (s : String) : Bool :=
  let cs := s.toList
  decide (cs.take 4 = ['h', 't', 't', 'p']) &&
    (let r := cs.drop 4
     (decide (r.take 4 = ['s', ':', '/', '/']) && afterScheme (r.drop 4)) ||
       (decide (r.take 3 = [':', '/', '/']) && afterScheme (r.drop 3)))

/-! ## JSON values and the extractor -/

/-- Parsed JSON values as produced by `json.load`: objects (Python dicts,
iterated in insertion order), arrays, strings, numbers, booleans, `null`.
`find_urls` never inspects a number's value, only its (non-container,
non-string) type, so numbers are carried as `Int`. -/
inductive Json where
  | obj : List (String × Json) → Json
  | arr : List Json → Json
  | str : String → Json
  | num : Int → Json
  | bool : Bool → Json
  | null : Json

mutual

/-- `find_urls(data)`: recursively walk the JSON value and collect every
string leaf matched by `URL_REGEX`, dict values in iteration order,
list items in index order. -/
def find_urls : Json → List String
  | .obj kvs => find_urls_obj kvs
  | .arr items => find_urls_arr items
  | .str s => if urlMatch s then [s] else []
  | .num _ => []
  | .bool _ => []
  | .null => []

/-- The `for key, value in data.items(): urls.extend(find_urls(value))` loop. -/
def find_urls_obj : List (String × Json) → List String
  | [] => []
  | (_, v) :: rest => find_urls v ++ find_urls_obj rest

/-- The `for item in data: urls.extend(find_urls(item))` loop. -/
def find_urls_arr : List Json → List String
  | [] => []
  | x :: rest => find_urls x ++ find_urls_arr rest

end

mutual

/-- The string leaves of a JSON value, in the same depth-first traversal
order as `find_urls`; "appears verbatim in the document" means membership
here. -/
def stringLeaves : Json → List String
  | .obj kvs => stringLeaves_obj kvs
  | .arr items => stringLeaves_arr items
  | .str s => [s]
  | .num _ => []
  | .bool _ => []
  | .null => []

/-- String leaves of an object's values, in iteration order. -/
def stringLeaves_obj : List (String × Json) → List String
  | [] => []
  | (_, v) :: rest => stringLeaves v ++ stringLeaves_obj rest

/-- String leaves of an array's items, in index order. -/
def stringLeaves_arr : List Json → List String
  | [] => []
  | x :: rest => stringLeaves x ++ stringLeaves_arr rest

end

/-! ## Python `int()` on strings

`head_request` runs `int(response.headers.get("Content-Length", 0))`.
When the header is present its value is a string, and CPython `int(str)`
accepts surrounding whitespace, an optional sign, and decimal digits with
single underscores between digits; anything else raises `ValueError`
(which is *not* a `requests.RequestException`). -/

/-- Whitespace stripped by `int(str)` (ASCII part). -/
def isPyWs (c : Char) : Bool :=
  c = ' ' || c = '\t' || c = '\n' || c = '\r' || c = '\x0b' || c = '\x0c'

/-- Digits after the first: decimal digits, with a single `_` allowed only
between two digits. -/
def parseDigitsAux : List Char → Nat → Option Nat
  | [], acc => some acc
  | '_' :: c :: rest, acc =>
      if c.isDigit then parseDigitsAux rest (acc * 10 + (c.toNat - 48)) else none
  | c :: rest, acc =>
      if c.isDigit then parseDigitsAux rest (acc * 10 + (c.toNat - 48)) else none

/-- A nonempty digit string (underscore separators allowed), starting with
a digit. -/
def parseDigits : List Char → Option Nat
  | [] => none
  | c :: rest =>
      if c.isDigit then parseDigitsAux rest (c.toNat - 48) else none

/-- CPython `int(s)` for a decimal string: `some n` on success, `none`
when `int` would raise `ValueError`. -/
def pyIntOfString (s : String) : Option Int :=
  let stripped := ((s.toList.dropWhile isPyWs).reverse.dropWhile isPyWs).reverse
  match stripped with
  | '-' :: rest => (parseDigits rest).map (fun n => -(n : Int))
  | '+' :: rest => (parseDigits rest).map (fun n => (n : Int))
  | cs => (parseDigits cs).map (fun n => (n : Int))

/-! ## Measurement strategies

The network is passed in as an explicit outcome.  A `netError` stands for
any `requests.RequestException` (timeout, connection refused, DNS
failure, malformed response, ...), tagged with its kind.  `elapsed` is
the wall-clock duration `time.time() - start_time`, as an exact rational. -/

/-- Outcome of `session.head(url, timeout=10)`: the response headers
(`requests` looks keys up case-insensitively) or a network error. -/
inductive HeadOutcome where
  | success (headers : List (String × String)) (elapsed : ℚ)
  | netError (kind : String)

/-- Outcome of `session.get(url, stream=True, timeout=10)`: the streamed
body chunks (each a list of bytes) or a network error. -/
inductive GetOutcome where
  | success (chunks : List (List Nat)) (elapsed : ℚ)
  | netError (kind : String)

/-- Result of running a Python function: a normal return value or an
uncaught exception, tagged with the exception's name. -/
inductive PyResult (α : Type) where
  | ok : α → PyResult α
  | exn : String → PyResult α
deriving DecidableEq

/-- `response.headers.get(key)`: case-insensitive lookup in the header
mapping (`requests.structures.CaseInsensitiveDict`). -/
def headersGet (headers : List (String × String)) (key : String) : Option String :=
  (headers.find?
      (fun kv => kv.1.toList.map Char.toLower == key.toList.map Char.toLower)).map
    (fun kv => kv.2)

/-- `head_request(url, session)`: on success, record
`int(response.headers.get("Content-Length", 0))` and the elapsed time; the
`except requests.RequestException` arm returns `(url, 0, 0)`.  When the
header is present but not a valid integer literal, `int` raises
`ValueError`, which the handler does not catch. -/
def head_request (url : String) (o : HeadOutcome) : PyResult (String × Int × ℚ) :=
  match o with
  | .netError _ => .ok (url, 0, 0)
  | .success headers elapsed =>
      match headersGet headers "Content-Length" with
      | none => .ok (url, 0, elapsed)
      | some v =>
          match pyIntOfString v with
          | some n => .ok (url, n, elapsed)
          | none => .exn "ValueError"

/-- `download_request(url, session)`: on success, record
`sum(len(chunk) for chunk in response.iter_content(chunk_size=8192))` and
the elapsed time; the `except requests.RequestException` arm returns
`(url, 0, 0)`. -/
def download_request (url : String) (o : GetOutcome) : PyResult (String × Int × ℚ) :=
  match o with
  | .netError _ => .ok (url, 0, 0)
  | .success chunks elapsed =>
      .ok (url, ((chunks.map List.length).sum : Int), elapsed)

/-! ## Time formatting and the dispatcher -/

/-- Python float `//` on exact rationals: `a // b = floor(a / b)`. -/
def pyFloordiv (a b : ℚ) : ℚ := ⌊a / b⌋

/-- Python float `%` on exact rationals: `a % b = a - b * floor(a / b)`. -/
def pyMod (a b : ℚ) : ℚ := a - b * ⌊a / b⌋

/-- `format_time(total_seconds)`: the numeric content of the returned
string `f"{minutes} minutes and {seconds} seconds"`, namely the pair
`(total_seconds // 60, total_seconds % 60)`. -/
def format_time (total_seconds : ℚ) : ℚ × ℚ :=
  let minutes := pyFloordiv total_seconds 60
  let seconds := pyMod total_seconds 60
  (minutes, seconds)

/-- One entry of `video_details`.  The two `formatted_*` fields hold the
numeric content of the rendered strings (`format_time(elapsed)` and
`size / 1024` in KB). -/
structure VideoDetail where
  url : String
  size : ℚ
  time : ℚ
  formatted_time : ℚ × ℚ
  formatted_size : ℚ
deriving DecidableEq

/-- The dictionary returned by `process_urls`: `total_size` in MB,
the numeric content `(total_time // 60, total_time % 60)` of
`total_time_str`, and the per-URL details in completion order. -/
structure ProcessResult where
  total_size : ℚ
  total_time : ℚ × ℚ
  video_details : List VideoDetail
deriving DecidableEq

/-- The body of the `as_completed` loop for one finished future:
`video_details.append({...})`. -/
def mkDetail (t : String × Int × ℚ) : VideoDetail :=
  { url := t.1
    size := (t.2.1 : ℚ) / 1024
    time := t.2.2
    formatted_time := format_time t.2.2
    formatted_size := (t.2.1 : ℚ) / 1024 }

/-- `process_urls(urls, max_threads, accurate)`, denotationally.  The
`ThreadPoolExecutor` submits one task per input URL and the
`as_completed` loop consumes the results in completion order;
`completed` is that completion-order list of per-task results
`(url, size, elapsed)`.  The loop accumulates `total_size += size`,
`total_time += elapsed` and appends one detail record per result; the
function returns `total_size / (1024*1024)` MB and the `//60`/`%60`
breakdown of `total_time`.  A run on input `urls` with per-submission
outcomes `outs` has `completed` a permutation of `urls.zip outs`. -/
def process_urls (completed : List (String × Int × ℚ)) : ProcessResult :=
  let total_size : Int := (completed.map (fun t => t.2.1)).sum
  let total_time : ℚ := (completed.map (fun t => t.2.2)).sum
  { total_size := (total_size : ℚ) / (1024 * 1024)
    total_time := (pyFloordiv total_time 60, pyMod total_time 60)
    video_details := completed.map mkDetail }

/-! ## Helper lemmas -/

mutual

/-- The extractor returns exactly the string leaves that match the URL
pattern, in traversal order. -/
theorem find_urls_eq_filter : (j : Json) → find_urls j = (stringLeaves j).filter urlMatch
  | .obj kvs => by rw [find_urls, stringLeaves, find_urls_obj_eq_filter kvs]
  | .arr items => by rw [find_urls, stringLeaves, find_urls_arr_eq_filter items]
  | .str s => by by_cases h : urlMatch s <;> simp [find_urls, stringLeaves, List.filter, h]
  | .num _ => rfl
  | .bool _ => rfl
  | .null => rfl

theorem find_urls_obj_eq_filter :
    (kvs : List (String × Json)) → find_urls_obj kvs = (stringLeaves_obj kvs).filter urlMatch
  | [] => rfl
  | (k, v) :: rest => by
      rw [find_urls_obj, stringLeaves_obj, List.filter_append, find_urls_eq_filter v,
        find_urls_obj_eq_filter rest]

theorem find_urls_arr_eq_filter :
    (items : List Json) → find_urls_arr items = (stringLeaves_arr items).filter urlMatch
  | [] => rfl
  | x :: rest => by
      rw [find_urls_arr, stringLeaves_arr, List.filter_append, find_urls_eq_filter x,
        find_urls_arr_eq_filter rest]

end

/-- Casting an integer list sum to `ℚ` distributes over the list. -/
theorem int_cast_sum_aux :
    (l : List Int) → ((l.sum : Int) : ℚ) = (l.map (fun i => (Int.cast i : ℚ))).sum
  | [] => by simp
  | x :: rest => by
      rw [List.sum_cons, List.map_cons, List.sum_cons, Int.cast_add, int_cast_sum_aux rest]

/-- Dividing each summand by a constant divides the sum. -/
theorem sum_div_aux (c : ℚ) :
    (l : List ℚ) → (l.map (fun x => x / c)).sum = l.sum / c
  | [] => by simp
  | x :: rest => by
      rw [List.map_cons, List.sum_cons, List.sum_cons, sum_div_aux c rest, add_div]

/-! ## Claims -/

/-- C1 (counterexample): in fast mode, a present but non-numeric
`Content-Length` header does NOT yield a zero-size record: `int("abc")`
raises `ValueError`, which `except requests.RequestException` does not
catch, so `head_request` raises instead of returning a record. -/
theorem head_request_nonnumeric_raises :
    head_request "http://a.bc" (HeadOutcome.success [("Content-Length", "abc")] 1)
        = PyResult.exn "ValueError" ∧
    head_request "http://a.bc" (HeadOutcome.success [("Content-Length", "abc")] 1)
        ≠ PyResult.ok ("http://a.bc", 0, 1) := by
  decide

/-- C1 (amended): in fast mode, the recorded byte size is the declared
`Content-Length` value when the header is present and numeric; an absent
header is recorded as 0 and the call returns a record; but a present
non-numeric value makes `int` raise `ValueError`, which escapes
`head_request`. -/
theorem head_request_content_length (url v : String) (hs : List (String × String)) (e : ℚ) :
    (headersGet hs "Content-Length" = none →
        head_request url (HeadOutcome.success hs e) = PyResult.ok (url, 0, e)) ∧
    (∀ n : Int, headersGet hs "Content-Length" = some v → pyIntOfString v = some n →
        head_request url (HeadOutcome.success hs e) = PyResult.ok (url, n, e)) ∧
    (headersGet hs "Content-Length" = some v → pyIntOfString v = none →
        head_request url (HeadOutcome.success hs e) = PyResult.exn "ValueError") := by
  refine ⟨fun h => ?_, fun n h1 h2 => ?_, fun h1 h2 => ?_⟩ <;>
    simp [head_request, *]

/-- C1 (witness for the amended claim): a response declaring
`Content-Length: 2048` is recorded as 2048 bytes. -/
theorem head_request_content_length_witness :
    head_request "http://a.bc" (HeadOutcome.success [("Content-Length", "2048")] 1)
      = PyResult.ok ("http://a.bc", 2048, 1) :=
  (head_request_content_length "http://a.bc" "2048" [("Content-Length", "2048")] 1).2.1
    2048 (by decide) (by decide)

/-- C2: for every URL and every network-layer error (any
`requests.RequestException` kind: timeout, connection refusal, DNS
failure, malformed response), both strategies catch the error and return
a `(url, 0, 0)` record; neither propagates the exception. -/
theorem strategies_catch_network_errors (url kind : String) :
    head_request url (HeadOutcome.netError kind) = PyResult.ok (url, 0, 0) ∧
    download_request url (GetOutcome.netError kind) = PyResult.ok (url, 0, 0) :=
  ⟨rfl, rfl⟩

/-- C3: for every input URL list and every combination of per-submission
outcomes (`completed` is the completion-order permutation of the
submitted tasks), the returned total size (MB) times 1024·1024 is the
exact sum of the individual record byte sizes, and the per-record sizes
(KB) sum to the same total. -/
theorem process_urls_total_size (urls : List String) (outs : List (Int × ℚ))
    (completed : List (String × Int × ℚ))
    (h : completed.Perm (urls.zip outs)) :
    (process_urls completed).total_size * (1024 * 1024)
        = ((((urls.zip outs).map (fun t => t.2.1)).sum : Int) : ℚ) ∧
    ((process_urls completed).video_details.map (fun d => d.size)).sum
        = (process_urls completed).total_size * 1024 := by
  have hsum : (completed.map (fun t => t.2.1)).sum = ((urls.zip outs).map (fun t => t.2.1)).sum :=
    (h.map (fun t => t.2.1)).sum_eq
  constructor
  · show (((completed.map (fun t => t.2.1)).sum : Int) : ℚ) / (1024 * 1024) * (1024 * 1024) = _
    rw [div_mul_cancel₀ _ (by norm_num : (1024 * 1024 : ℚ) ≠ 0), hsum]
  · show ((completed.map mkDetail).map (fun d => d.size)).sum
        = (((completed.map (fun t => t.2.1)).sum : Int) : ℚ) / (1024 * 1024) * 1024
    rw [List.map_map,
      show ((fun d : VideoDetail => d.size) ∘ mkDetail)
          = ((fun x : ℚ => x / 1024) ∘ fun t : String × Int × ℚ => (Int.cast t.2.1 : ℚ)) from rfl,
      ← List.map_map, sum_div_aux,
      show (fun t : String × Int × ℚ => (Int.cast t.2.1 : ℚ))
          = ((fun i : Int => (Int.cast i : ℚ)) ∘ fun t : String × Int × ℚ => t.2.1) from rfl,
      ← List.map_map, ← int_cast_sum_aux]
    ring

/-- C3 witness: three tasks, one failed (0 bytes), consumed in an order
different from submission order. -/
theorem process_urls_total_size_witness :
    (process_urls [("http://a.bc/2", 0, 0), ("http://a.bc/1", 2048, 1), ("http://a.bc/3", 1024, 2)]).total_size
        * (1024 * 1024)
      = ((([("http://a.bc/1", ((2048 : Int), (1 : ℚ))), ("http://a.bc/2", (0, 0)), ("http://a.bc/3", (1024, 2))].map
            (fun t => t.2.1)).sum : Int) : ℚ) := by
  have := process_urls_total_size
    ["http://a.bc/1", "http://a.bc/2", "http://a.bc/3"]
    [((2048 : Int), (1 : ℚ)), (0, 0), (1024, 2)]
    [("http://a.bc/2", 0, 0), ("http://a.bc/1", 2048, 1), ("http://a.bc/3", 1024, 2)]
    (by decide)
  simpa using this.1

/-- C4: the dispatcher produces exactly one record per input URL —
`video_details` has the length of the input list (duplicates and failures
included), and the record URLs are a permutation of the input URLs. -/
theorem process_urls_record_count (urls : List String) (outs : List (Int × ℚ))
    (completed : List (String × Int × ℚ))
    (hlen : outs.length = urls.length)
    (h : completed.Perm (urls.zip outs)) :
    (process_urls completed).video_details.length = urls.length ∧
    ((process_urls completed).video_details.map (fun d => d.url)).Perm urls := by
  constructor
  · show (completed.map mkDetail).length = urls.length
    rw [List.length_map, h.length_eq, List.length_zip, hlen, min_self]
  · show ((completed.map mkDetail).map (fun d => d.url)).Perm urls
    rw [List.map_map]
    have hcomp : ((fun d : VideoDetail => d.url) ∘ mkDetail)
        = fun t : String × Int × ℚ => t.1 := rfl
    rw [hcomp]
    have hfst : (urls.zip outs).map (fun t => t.1) = urls := by
      rw [show (fun t : String × Int × ℚ => t.1) = Prod.fst from rfl]
      exact List.map_fst_zip urls outs (le_of_eq hlen.symm)
    exact hfst ▸ h.map (fun t => t.1)

/-- C4 witness: a batch of 3 URLs (with a duplicate) where one
measurement fails yields exactly 3 records, one per input URL. -/
theorem process_urls_record_count_witness :
    (process_urls [("http://a.bc/1", 0, 0), ("http://a.bc/2", 2048, 1), ("http://a.bc/1", 512, 2)]).video_details.length
        = 3 ∧
    ((process_urls [("http://a.bc/1", 0, 0), ("http://a.bc/2", 2048, 1), ("http://a.bc/1", 512, 2)]).video_details.map
        (fun d => d.url)).Perm ["http://a.bc/1", "http://a.bc/2", "http://a.bc/1"] := by
  have := process_urls_record_count
    ["http://a.bc/1", "http://a.bc/2", "http://a.bc/1"]
    [((0 : Int), (0 : ℚ)), (2048, 1), (512, 2)]
    [("http://a.bc/1", 0, 0), ("http://a.bc/2", 2048, 1), ("http://a.bc/1", 512, 2)]
    (by decide) (by decide)
  exact this

/-- C5: every string returned by `find_urls` matches the URL pattern and
appears verbatim as a string leaf of the document, and a document none of
whose string leaves match yields the empty sequence. -/
theorem find_urls_sound (j : Json) (s : String) :
    (s ∈ find_urls j → urlMatch s = true ∧ s ∈ stringLeaves j) ∧
    ((∀ u ∈ stringLeaves j, urlMatch u = false) → find_urls j = []) := by
  constructor
  · intro hs
    rw [find_urls_eq_filter] at hs
    exact ⟨(List.mem_filter.mp hs).2, (List.mem_filter.mp hs).1⟩
  · intro hall
    rw [find_urls_eq_filter, List.filter_eq_nil_iff]
    intro u hu
    simp [hall u hu]

/-- C5 witness: the extracted string `"http://x.test/f1"` matches the
pattern and is a string leaf of the document it came from. -/
theorem find_urls_sound_witness :
    urlMatch "http://x.test/f1" = true ∧
    "http://x.test/f1" ∈ stringLeaves (Json.obj [("a", Json.str "http://x.test/f1"), ("b", Json.num 5)]) :=
  (find_urls_sound (Json.obj [("a", Json.str "http://x.test/f1"), ("b", Json.num 5)])
    "http://x.test/f1").1 (by decide)

/-- C6: `find_urls` is total on every JSON value — it always equals the
URL-matching filter of the document's string leaves (a possibly empty
list of strings), and scalars, `null` and empty containers yield `[]`. -/
theorem find_urls_total (j : Json) :
    find_urls j = (stringLeaves j).filter urlMatch ∧
    find_urls Json.null = [] ∧
    (∀ n, find_urls (Json.num n) = []) ∧
    (∀ b, find_urls (Json.bool b) = []) ∧
    find_urls (Json.obj []) = [] ∧
    find_urls (Json.arr []) = [] :=
  ⟨find_urls_eq_filter j, rfl, fun _ => rfl, fun _ => rfl, rfl, rfl⟩

/-- C7: a dispatcher run with an empty URL list (hence an empty
completion sequence) returns zero totals and an empty record list,
without error. -/
theorem process_urls_empty (outs : List (Int × ℚ)) (completed : List (String × Int × ℚ))
    (h : completed.Perm (([] : List String).zip outs)) :
    process_urls completed = { total_size := 0, total_time := (0, 0), video_details := [] } := by
  have hnil : completed = [] := by simpa using h
  subst hnil
  show ProcessResult.mk ((((0 : Int) : ℚ)) / (1024 * 1024)) (pyFloordiv 0 60, pyMod 0 60) [] = _
  norm_num [pyFloordiv, pyMod]

/-- C7 witness: the empty run evaluated concretely. -/
theorem process_urls_empty_witness :
    process_urls [] = { total_size := 0, total_time := (0, 0), video_details := [] } :=
  process_urls_empty [] [] (List.Perm.refl _)

/-- C8: on `{"a": "http://x.test/f1", "b": 5, "c": "http://x.test/f2"}`
the extractor returns exactly `["http://x.test/f1", "http://x.test/f2"]`,
in traversal order. -/
theorem find_urls_scenario :
    find_urls (Json.obj
        [("a", Json.str "http://x.test/f1"), ("b", Json.num 5), ("c", Json.str "http://x.test/f2")])
      = ["http://x.test/f1", "http://x.test/f2"] := by
  decide

/-- C10: for every non-negative time `t`, `format_time t` is the pair
`(t // 60, t % 60)` with `(t // 60) * 60 + (t % 60) = t` and
`0 ≤ t % 60 < 60`; `process_urls` applies the same floor-division/modulo
decomposition to the summed total time. -/
theorem format_time_decomposition (t : ℚ) (completed : List (String × Int × ℚ)) (_h : 0 ≤ t) :
    (format_time t).1 * 60 + (format_time t).2 = t ∧
    0 ≤ (format_time t).2 ∧
    (format_time t).2 < 60 ∧
    format_time t = (pyFloordiv t 60, pyMod t 60) ∧
    (process_urls completed).total_time
      = (pyFloordiv ((completed.map (fun r => r.2.2)).sum) 60,
         pyMod ((completed.map (fun r => r.2.2)).sum) 60) := by
  have hle : ((⌊t / 60⌋ : ℚ)) ≤ t / 60 := Int.floor_le (t / 60)
  have hlt : t / 60 < (⌊t / 60⌋ : ℚ) + 1 := Int.lt_floor_add_one (t / 60)
  refine ⟨?_, ?_, ?_, rfl, rfl⟩
  · show (⌊t / 60⌋ : ℚ) * 60 + (t - 60 * ⌊t / 60⌋) = t
    ring
  · show (0 : ℚ) ≤ t - 60 * ⌊t / 60⌋
    have : (⌊t / 60⌋ : ℚ) * 60 ≤ t / 60 * 60 := by
      exact mul_le_mul_of_nonneg_right hle (by norm_num)
    rw [div_mul_cancel₀ t (by norm_num : (60 : ℚ) ≠ 0)] at this
    linarith
  · show t - 60 * ⌊t / 60⌋ < 60
    have : t / 60 * 60 < ((⌊t / 60⌋ : ℚ) + 1) * 60 :=
      mul_lt_mul_of_pos_right hlt (by norm_num)
    rw [div_mul_cancel₀ t (by norm_num : (60 : ℚ) ≠ 0)] at this
    linarith

/-- C10 witness: 125 seconds decompose as 2 minutes and 5 seconds, both
in `format_time` and in the dispatcher's total. -/
theorem format_time_decomposition_witness :
    (format_time 125).1 * 60 + (format_time 125).2 = 125 ∧
    (process_urls [("http://a.bc", 3, 125)]).total_time = (2, 5) := by
  obtain ⟨h1, -, -, -, h5⟩ :=
    format_time_decomposition 125 [("http://a.bc", 3, 125)] (by norm_num)
  refine ⟨h1, ?_⟩
  rw [h5]
  norm_num [pyFloordiv, pyMod]

end YTotalHours
